import Mathlib

/-!
Verification of the PyPTZ motion-control library (pyptz).

The development shallowly embeds the logic of the three camera facades
(SUNAPICamera, VAPIXCamera, ONVIFCamera): the relative-move boundary
clamping, the relative/absolute dispatch branch, the status-decoder pan
normalization, the preset name-resolution scans, the enumerated-argument
validation, and the transport status-code handling.  Numeric values are
modelled as exact rationals.
-/

namespace SUNAPI

/-- Values a SUNAPI query-string payload maps parameter names to
(Python passes strings, numbers, booleans and None). -/
inductive PVal
  | str (v : String)
  | num (v : ℚ)
  | int (v : Int)
  | bool (v : Bool)
  | none
deriving DecidableEq, Repr

/-- Payload value of an optional rational argument (None stays None). -/
def PVal.ofOptRat : Option ℚ → PVal
  | Option.none => PVal.none
  | Option.some v => PVal.num v

/-- Payload value of an optional string argument (None stays None). -/
def PVal.ofOptStr : Option String → PVal
  | Option.none => PVal.none
  | Option.some v => PVal.str v

/-- Pan-delta clamping step of SUNAPICamera.relative_move
(sunapi_control.py lines 107-119): if the projected absolute pan
current_pan + pan surpasses 360 the delta is reduced by a full turn,
if it falls below 0 the delta is increased by a full turn, otherwise
the delta is forwarded unchanged. -/
def panClamp (current_pan pan : ℚ) : ℚ :=
  if current_pan + pan > 360 then pan - 360
  else if current_pan + pan < 0 then 360 + pan
  else pan

/-- Tilt-delta clamping step of SUNAPICamera.relative_move
(sunapi_control.py lines 121-133): the projected absolute tilt is held
inside the range by replacing the delta with 90 - current on overflow and
with -20 + abs(current) on underflow. -/
def tiltClamp (current_tilt tilt : ℚ) : ℚ :=
  if 90 < current_tilt + tilt then 90 - current_tilt
  else if current_tilt + tilt < -20 then -20 + |current_tilt|
  else tilt

/-- Zoom-delta clamping step of SUNAPICamera.relative_move
(sunapi_control.py lines 135-147). -/
def zoomClamp (current_zoom zoom : ℚ) : ℚ :=
  if 40 < current_zoom + zoom then 40 - current_zoom
  else if current_zoom + zoom < 1 then 1 - current_zoom
  else zoom

/-- Pan normalization performed by SUNAPICamera.get_ptz_status
(sunapi_control.py lines 52-56) on the pan value parsed from the device
reply: a reading within 0.02 of 360 or below 0.02 is forced to exactly 0. -/
def normalizePan (current_pan : ℚ) : ℚ :=
  if |360 - current_pan| < 0.02 ∨ current_pan < 0.02 then 0 else current_pan

/-- The payload SUNAPICamera.relative_move sends to ptzcontrol.cgi
(sunapi_control.py lines 92-160).  The arguments current_pan, current_tilt
and current_zoom stand for the triple returned by get_ptz_status (already
normalized); pan, tilt and zoom are the requested deltas, None when the
axis is not moved.  Each non-null delta is clamped; the dispatch branch
then issues a relative command when the queried current pan is nonzero and
an absolute command when it is zero, both carrying the clamped deltas. -/
def relative_move (current_pan current_tilt current_zoom : ℚ)
    (pan tilt zoom : Option ℚ) : List (String × PVal) :=
  let pan := pan.map (panClamp current_pan)
  let tilt := tilt.map (tiltClamp current_tilt)
  let zoom := zoom.map (zoomClamp current_zoom)
  if current_pan ≠ 0 then
    [("msubmenu", PVal.str "relative"), ("action", PVal.str "control"),
     ("Pan", PVal.ofOptRat pan), ("Tilt", PVal.ofOptRat tilt),
     ("Zoom", PVal.ofOptRat zoom),
     ("ZoomPulse", PVal.none), ("Channel", PVal.none)]
  else
    [("msubmenu", PVal.str "absolute"), ("action", PVal.str "control"),
     ("Pan", PVal.ofOptRat pan), ("Tilt", PVal.ofOptRat tilt),
     ("Zoom", PVal.ofOptRat zoom),
     ("ZoomPulse", PVal.none), ("Channel", PVal.none)]

/-- SUNAPICamera.continuous_move (sunapi_control.py lines 162-183): a focus
argument outside the fixed allowed choices raises an exception before the
transport call is made; otherwise the continuous payload is handed to the
transport.  Except.error models the raised exception (no network request
issued), Except.ok the payload of the single request issued. -/
def continuous_move (normalized_speed : Bool) (pan tilt zoom : Int)
    (focus : Option String) : Except String (List (String × PVal)) :=
  if ¬(focus = some "Near" ∨ focus = some "Far" ∨ focus = some "Stop" ∨
      focus = Option.none) then
    Except.error "Unauthorized command: Please enter a string from the choices Near, Far, or Stop"
  else
    Except.ok [("msubmenu", PVal.str "continuous"), ("action", PVal.str "control"),
      ("NormalizedSpeed", PVal.bool normalized_speed), ("Pan", PVal.int pan),
      ("Tilt", PVal.int tilt), ("Zoom", PVal.int zoom),
      ("Focus", PVal.ofOptStr focus)]

/-- SUNAPICamera.swing_control (sunapi_control.py lines 288-306): a mode
outside the fixed allowed choices raises before any network call. -/
def swing_control (channel : Int) (mode : Option String) :
    Except String (List (String × PVal)) :=
  if ¬(mode = some "Pan" ∨ mode = some "Tilt" ∨ mode = some "PanTilt" ∨
      mode = some "Stop" ∨ mode = Option.none) then
    Except.error "Unauthorized command: Please enter a string from the choices Pan, Tilt, PanTilt, Stop"
  else
    Except.ok [("msubmenu", PVal.str "swing"), ("action", PVal.str "control"),
      ("Channel", PVal.int channel), ("Mode", PVal.ofOptStr mode)]

/-- SUNAPICamera.group_control (sunapi_control.py lines 308-328): a mode
outside the fixed allowed choices raises before any network call. -/
def group_control (channel group : Int) (mode : Option String) :
    Except String (List (String × PVal)) :=
  if ¬(mode = some "Start" ∨ mode = some "Stop" ∨ mode = Option.none) then
    Except.error "Unauthorized command: Please enter a string from the choices Start or Stop"
  else
    Except.ok [("msubmenu", PVal.str "group"), ("action", PVal.str "control"),
      ("Channel", PVal.int channel), ("Group", PVal.int group),
      ("Mode", PVal.ofOptStr mode)]

/-- SUNAPICamera.tour_control (sunapi_control.py lines 330-349): a mode
outside the fixed allowed choices raises before any network call. -/
def tour_control (channel tour : Int) (mode : Option String) :
    Except String (List (String × PVal)) :=
  if ¬(mode = some "Start" ∨ mode = some "Stop" ∨ mode = Option.none) then
    Except.error "Unauthorized command: Please enter a string from the choices Start or Stop"
  else
    Except.ok [("msubmenu", PVal.str "tour"), ("action", PVal.str "control"),
      ("Channel", PVal.int channel), ("Tour", PVal.int tour),
      ("Mode", PVal.ofOptStr mode)]

/-- SUNAPICamera.trace_control (sunapi_control.py lines 351-370): a mode
outside the fixed allowed choices raises before any network call. -/
def trace_control (channel trace : Int) (mode : Option String) :
    Except String (List (String × PVal)) :=
  if ¬(mode = some "Start" ∨ mode = some "Stop" ∨ mode = Option.none) then
    Except.error "Unauthorized command: Please enter a string from the choices Start or Stop"
  else
    Except.ok [("msubmenu", PVal.str "trace"), ("action", PVal.str "control"),
      ("Channel", PVal.int channel), ("Trace", PVal.int trace),
      ("Mode", PVal.ofOptStr mode)]

end SUNAPI

/-- What the private command helpers do with a response status code:
whether the error body is decoded and reported, and whether the whole
process is terminated by exit(1). -/
structure CmdErrorHandling where
  reportsErrorBody : Bool
  exitsProcess : Bool
deriving DecidableEq, Repr

namespace SUNAPI

/-- Status-code handling of the private command helper of SUNAPICamera
(sunapi_control.py lines 29-35): statuses other than 200 and 204 have
their body decoded and reported, and status 401 additionally terminates
the process; 200 and 204 are returned with no error handling at all. -/
def cmdHandle (status : Nat) : CmdErrorHandling :=
  if status ≠ 200 ∧ status ≠ 204 then
    { reportsErrorBody := true, exitsProcess := decide (status = 401) }
  else
    { reportsErrorBody := false, exitsProcess := false }

end SUNAPI

namespace VAPIX

/-- Pan decoding performed by VAPIXCamera.get_ptz_status
(vapix_control.py lines 172-184): the pan value parsed from the reply text
is returned to the caller unchanged, with no normalization step. -/
def normalizePan (current_pan : ℚ) : ℚ :=
  current_pan

/-- Status-code handling of the private command helper of VAPIXCamera
(vapix_control.py lines 50-56), identical in logic to the SUNAPI one. -/
def cmdHandle (status : Nat) : CmdErrorHandling :=
  if status ≠ 200 ∧ status ≠ 204 then
    { reportsErrorBody := true, exitsProcess := decide (status = 401) }
  else
    { reportsErrorBody := false, exitsProcess := false }

end VAPIX

namespace ONVIF

/-- A device-side preset record as seen through the onvif service: an
opaque token and a human-assigned display name (onvif_control.py reads
the fields Name and token of each entry of GetPresets). -/
structure Preset where
  Name : String
  token : String
deriving DecidableEq, Repr

/-- Result of the name scan of ONVIFCamera.set_preset: noop means the loop
found an entry whose display name equals the requested name and the method
returned None without calling SetPreset; created n means no entry matched
and the SetPreset create call was issued with PresetName n, its response
returned to the caller. -/
inductive SetPresetResult
  | noop
  | created (name : String)
deriving DecidableEq, Repr

/-- ONVIFCamera.set_preset (onvif_control.py lines 124-143) applied to the
freshly fetched preset list: the loop returns None at the first entry whose
display name equals preset_name, short-circuiting the scan; if the loop
finishes with no match, the SetPreset call is issued with the given name. -/
def set_preset (presets : List Preset) (preset_name : String) : SetPresetResult :=
  match presets with
  | [] => .created preset_name
  | p :: rest => if p.Name = preset_name then .noop else set_preset rest preset_name

/-- Modelled from the spec: the device-side effect of the SetPreset create
call, which is performed by the external onvif service and is not code of
this repository.  Per the data model (spec section 3, presets are created
by set and carry a human-assigned display name), creating appends to the
device list an entry carrying the requested name, with a device-chosen
token. -/
def deviceCreate (presets : List Preset) (name token : String) : List Preset :=
  presets ++ [⟨name, token⟩]

/-- The device preset list after one whole set_preset call, given the token
the device would assign to a newly created entry: when the scan reports a
match, no create call is issued and the list is unchanged; otherwise the
issued SetPreset call creates the entry. -/
def set_preset_effect (presets : List Preset) (preset_name token : String) :
    List Preset :=
  match set_preset presets preset_name with
  | .noop => presets
  | .created n => deviceCreate presets n token

/-- Result of the name scans of ONVIFCamera.remove_preset and go_to_preset:
issued t means the device operation was issued with PresetToken t and that
call's response returned; no_match means the loop finished without a match
and the method returned None, with no device command issued beyond the
initial GetPresets fetch. -/
inductive PresetOpResult
  | issued (token : String)
  | no_match
deriving DecidableEq, Repr

/-- ONVIFCamera.remove_preset (onvif_control.py lines 171-189): the loop
issues RemovePreset against the token of the first entry whose display name
equals preset_name and returns that response; with no match it returns
None. -/
def remove_preset (presets : List Preset) (preset_name : String) : PresetOpResult :=
  match presets with
  | [] => .no_match
  | p :: rest =>
    if p.Name = preset_name then .issued p.token else remove_preset rest preset_name

/-- ONVIFCamera.go_to_preset (onvif_control.py lines 191-210): the loop
issues GotoPreset against the token of the first entry whose display name
equals preset_position and returns that response; with no match it returns
None. -/
def go_to_preset (presets : List Preset) (preset_position : String) : PresetOpResult :=
  match presets with
  | [] => .no_match
  | p :: rest =>
    if p.Name = preset_position then .issued p.token else go_to_preset rest preset_position

end ONVIF

/-- Helper: the set_preset scan reports a match exactly when some entry of
the fetched list carries the requested display name. -/
theorem onvif_set_preset_noop_iff (presets : List ONVIF.Preset) (name : String) :
    ONVIF.set_preset presets name = ONVIF.SetPresetResult.noop ↔
      ∃ p ∈ presets, p.Name = name := by
  induction presets with
  | nil => simp [ONVIF.set_preset]
  | cons p rest ih =>
    rw [ONVIF.set_preset]
    split_ifs with h
    · simp [h]
    · simp [ih, h]

/-- Helper: a set_preset call either reports a match or issues the create
call carrying the requested name. -/
theorem onvif_set_preset_cases (presets : List ONVIF.Preset) (name : String) :
    ONVIF.set_preset presets name = ONVIF.SetPresetResult.noop ∨
      ONVIF.set_preset presets name = ONVIF.SetPresetResult.created name := by
  induction presets with
  | nil => simp [ONVIF.set_preset]
  | cons p rest ih =>
    rw [ONVIF.set_preset]
    split_ifs with h
    · exact Or.inl rfl
    · exact ih

/-- C1 counterexample: the claim predicts that a relative command (payload
msubmenu relative) is issued when the queried current pan equals exactly 0,
but at current pan 0 the code issues the absolute command: the payload built
by relative_move carries msubmenu absolute, not relative. -/
theorem sunapi_dispatch_at_zero_pan :
    List.lookup "msubmenu" (SUNAPI.relative_move 0 10 5 (some 5) (some 5) (some 5)) =
      some (SUNAPI.PVal.str "absolute") ∧
    List.lookup "msubmenu" (SUNAPI.relative_move 0 10 5 (some 5) (some 5) (some 5)) ≠
      some (SUNAPI.PVal.str "relative") := by
  constructor
  · simp [SUNAPI.relative_move, List.lookup]
  · simp [SUNAPI.relative_move, List.lookup]

/-- C1 amended: dispatch law for SUNAPI relative_move — after querying and
normalizing the current pan, if the queried current pan is nonzero the move
is issued as a relative command (payload msubmenu relative) carrying the
clamped delta values, and if it equals exactly 0 it is issued as an absolute
command (payload msubmenu absolute) reusing the same clamped delta values as
parameters. -/
theorem sunapi_relative_move_dispatch (cp ct cz : ℚ) (pan tilt zoom : Option ℚ) :
    (cp ≠ 0 → List.lookup "msubmenu" (SUNAPI.relative_move cp ct cz pan tilt zoom) =
      some (SUNAPI.PVal.str "relative")) ∧
    (cp = 0 → List.lookup "msubmenu" (SUNAPI.relative_move cp ct cz pan tilt zoom) =
      some (SUNAPI.PVal.str "absolute")) ∧
    List.lookup "Pan" (SUNAPI.relative_move cp ct cz pan tilt zoom) =
      some (SUNAPI.PVal.ofOptRat (pan.map (SUNAPI.panClamp cp))) ∧
    List.lookup "Tilt" (SUNAPI.relative_move cp ct cz pan tilt zoom) =
      some (SUNAPI.PVal.ofOptRat (tilt.map (SUNAPI.tiltClamp ct))) ∧
    List.lookup "Zoom" (SUNAPI.relative_move cp ct cz pan tilt zoom) =
      some (SUNAPI.PVal.ofOptRat (zoom.map (SUNAPI.zoomClamp cz))) := by
  refine ⟨fun h => ?_, fun h => ?_, ?_, ?_, ?_⟩ <;>
    unfold SUNAPI.relative_move <;> split_ifs <;> simp_all [List.lookup]

/-- C2 counterexample: at current pan 180 (inside the stated range
[0.02, 359.98]) and requested delta 180 the projected pan 180 + 180 = 360
meets neither wrap branch, so the projected absolute pan after clamping is
exactly 360, outside the half-open interval [0, 360). -/
theorem sunapi_pan_projection_boundary :
    ((0.02 : ℚ) ≤ 180 ∧ (180 : ℚ) ≤ 359.98) ∧
    ¬(0 ≤ (180 : ℚ) + SUNAPI.panClamp 180 180 ∧
      (180 : ℚ) + SUNAPI.panClamp 180 180 < 360) := by
  norm_num [SUNAPI.panClamp]

/-- C2 amended: for every current pan p in [0.02, 359.98] and every requested
pan delta d whose projection p + d lies in [-360, 720) and is not exactly
360, the pan delta produced by the SUNAPI relative_move clamping step yields
a projected absolute pan p + clamped(d) in the half-open interval [0, 360). -/
theorem sunapi_pan_projection_in_range (p d : ℚ)
    (hp0 : 0.02 ≤ p) (hp1 : p ≤ 359.98)
    (hlo : -360 ≤ p + d) (hhi : p + d < 720) (hne : p + d ≠ 360) :
    0 ≤ p + SUNAPI.panClamp p d ∧ p + SUNAPI.panClamp p d < 360 := by
  unfold SUNAPI.panClamp
  split_ifs with h1 h2
  · constructor <;> linarith
  · constructor <;> linarith
  · push_neg at h1 h2
    exact ⟨by linarith, lt_of_le_of_ne h1 hne⟩

/-- C2 witness: the scenario of the spec — current pan 358, requested delta
5; the clamped delta is -355 and the projected pan 3 lies in [0, 360). -/
theorem sunapi_pan_projection_in_range_witness :
    0 ≤ (358 : ℚ) + SUNAPI.panClamp 358 5 ∧ (358 : ℚ) + SUNAPI.panClamp 358 5 < 360 :=
  sunapi_pan_projection_in_range 358 5 (by norm_num) (by norm_num)
    (by norm_num) (by norm_num) (by norm_num)

/-- C3 counterexample: the claim covers the status decoders of both
query-string facades, but the VAPIX get_ptz_status returns the parsed pan
unchanged: the raw reading 359.99 is within 0.02 of 360 yet decodes to
359.99, not to 0. -/
theorem vapix_pan_normalization_missing :
    |(360 : ℚ) - 359.99| < 0.02 ∧ VAPIX.normalizePan 359.99 ≠ 0 := by
  constructor
  · norm_num [abs_lt]
  · norm_num [VAPIX.normalizePan]

/-- C3 amended: the SUNAPI status decoder normalizes the reported pan
reading — whenever the raw pan parsed from the device reply is within 0.02
of 360 degrees or within 0.02 of 0 degrees, the decoded pan is exactly 0
(the VAPIX decoder performs no such normalization). -/
theorem sunapi_pan_normalization_to_zero (raw : ℚ)
    (h : |360 - raw| < 0.02 ∨ |raw| < 0.02) :
    SUNAPI.normalizePan raw = 0 := by
  unfold SUNAPI.normalizePan
  rcases h with h | h
  · rw [if_pos (Or.inl h)]
  · rw [if_pos (Or.inr (lt_of_le_of_lt (le_abs_self raw) h))]

/-- C3 witness: the raw reading 359.99 of the spec scenario decodes to
exactly 0. -/
theorem sunapi_pan_normalization_to_zero_witness :
    SUNAPI.normalizePan 359.99 = 0 :=
  sunapi_pan_normalization_to_zero 359.99 (Or.inl (by norm_num [abs_lt]))

/-- C4: tilt clamping in SUNAPI relative_move — for every current tilt t in
[-20, 90] and every requested tilt delta d, if t + d > 90 the dispatched
tilt delta equals 90 - t; if t + d < -20 it equals -20 + abs(t); otherwise
the requested delta d is forwarded unchanged. -/
theorem sunapi_tilt_clamp_spec (t d : ℚ) (h0 : -20 ≤ t) (h1 : t ≤ 90) :
    (90 < t + d → SUNAPI.tiltClamp t d = 90 - t) ∧
    (t + d < -20 → SUNAPI.tiltClamp t d = -20 + |t|) ∧
    (-20 ≤ t + d → t + d ≤ 90 → SUNAPI.tiltClamp t d = d) := by
  refine ⟨fun h => ?_, fun h => ?_, fun ha hb => ?_⟩ <;> unfold SUNAPI.tiltClamp
  · rw [if_pos h]
  · rw [if_neg (by linarith), if_pos h]
  · rw [if_neg (by linarith), if_neg (by linarith)]

/-- C4 witness: the scenario of the spec — current tilt 80, requested delta
15; the projection 95 exceeds 90 so the dispatched delta is 90 - 80. -/
theorem sunapi_tilt_clamp_spec_witness :
    SUNAPI.tiltClamp 80 15 = 90 - 80 :=
  (sunapi_tilt_clamp_spec 80 15 (by norm_num) (by norm_num)).1 (by norm_num)

/-- C5: pan wrapping is circular, not clamped-to-edge — for every current
pan p and every requested pan delta d, the dispatched pan delta is one of
d, d - 360 or d + 360, hence the projected absolute pan p + clamped(d) is
congruent to p + d modulo 360: the target heading is preserved up to full
turns. -/
theorem sunapi_pan_wrap_circular (p d : ℚ) :
    (SUNAPI.panClamp p d = d ∨ SUNAPI.panClamp p d = d - 360 ∨
      SUNAPI.panClamp p d = d + 360) ∧
    ∃ k : ℤ, (p + SUNAPI.panClamp p d) - (p + d) = 360 * k := by
  unfold SUNAPI.panClamp
  split_ifs
  · exact ⟨Or.inr (Or.inl rfl), -1, by push_cast; ring⟩
  · exact ⟨Or.inr (Or.inr (add_comm 360 d)), 1, by push_cast; ring⟩
  · exact ⟨Or.inl rfl, 0, by push_cast; ring⟩

/-- C10: in SUNAPI relative_move, for every current tilt t with
0 <= t <= 90 and every requested tilt delta d with t + d < -20, the
dispatched tilt delta equals -20 + t, so the projected absolute tilt equals
2t - 20; this projection equals the -20 lower bound exactly when t = 0 and
exceeds the 90 upper bound exactly when t > 55. -/
theorem sunapi_tilt_underflow_projection (t d : ℚ)
    (h0 : 0 ≤ t) (h1 : t ≤ 90) (h : t + d < -20) :
    SUNAPI.tiltClamp t d = -20 + t ∧
    t + SUNAPI.tiltClamp t d = 2 * t - 20 ∧
    (t + SUNAPI.tiltClamp t d = -20 ↔ t = 0) ∧
    (90 < t + SUNAPI.tiltClamp t d ↔ 55 < t) := by
  have hclamp : SUNAPI.tiltClamp t d = -20 + t := by
    unfold SUNAPI.tiltClamp
    rw [if_neg (by linarith), if_pos h, abs_of_nonneg h0]
  refine ⟨hclamp, by rw [hclamp]; ring, ?_, ?_⟩
  · rw [hclamp]
    constructor <;> intro hx <;> linarith
  · rw [hclamp]
    constructor <;> intro hx <;> linarith

/-- C10 witness: current tilt 60 with requested delta -100 underflows; the
dispatched delta is -20 + 60 = 40 and the projected tilt 100 = 2 * 60 - 20
exceeds the 90 upper bound, as 60 > 55. -/
theorem sunapi_tilt_underflow_projection_witness :
    SUNAPI.tiltClamp 60 (-100) = -20 + 60 ∧
    (60 : ℚ) + SUNAPI.tiltClamp 60 (-100) = 2 * 60 - 20 ∧
    ((60 : ℚ) + SUNAPI.tiltClamp 60 (-100) = -20 ↔ (60 : ℚ) = 0) ∧
    (90 < (60 : ℚ) + SUNAPI.tiltClamp 60 (-100) ↔ (55 : ℚ) < 60) :=
  sunapi_tilt_underflow_projection 60 (-100) (by norm_num) (by norm_num) (by norm_num)

/-- C6: ONVIF set_preset is a no-op on an existing name — if some entry of
the device preset list carries the requested display name, set_preset
returns None without issuing the SetPreset create call; if no entry
matches, it issues the create call with the given name; and a second
immediate set_preset with the same name returns None and leaves the device
preset list unchanged, creating no second entry. -/
theorem onvif_set_preset_idempotent (presets : List ONVIF.Preset)
    (name token token2 : String) :
    ((∃ p ∈ presets, p.Name = name) →
      ONVIF.set_preset presets name = ONVIF.SetPresetResult.noop) ∧
    ((∀ p ∈ presets, p.Name ≠ name) →
      ONVIF.set_preset presets name = ONVIF.SetPresetResult.created name) ∧
    ONVIF.set_preset (ONVIF.set_preset_effect presets name token) name =
      ONVIF.SetPresetResult.noop ∧
    ONVIF.set_preset_effect (ONVIF.set_preset_effect presets name token) name token2 =
      ONVIF.set_preset_effect presets name token := by
  have key : ONVIF.set_preset (ONVIF.set_preset_effect presets name token) name =
      ONVIF.SetPresetResult.noop := by
    rcases onvif_set_preset_cases presets name with h | h
    · rw [ONVIF.set_preset_effect, h]
      exact h
    · rw [ONVIF.set_preset_effect, h]
      rw [onvif_set_preset_noop_iff]
      exact ⟨⟨name, token⟩, by simp [ONVIF.deviceCreate]⟩
  refine ⟨fun h => (onvif_set_preset_noop_iff presets name).mpr h, fun h => ?_, key, ?_⟩
  · rcases onvif_set_preset_cases presets name with hc | hc
    · exfalso
      obtain ⟨p, hp, hpn⟩ := (onvif_set_preset_noop_iff presets name).mp hc
      exact h p hp hpn
    · exact hc
  · rw [ONVIF.set_preset_effect, key]

/-- C7: ONVIF remove_preset and go_to_preset resolve names by first match —
if the scan of the device preset list finds an entry with the requested
display name, the operation is issued against the token of the first such
entry (and that call's response is returned); if no entry matches, both
return None without issuing any device command beyond the initial list
fetch. -/
theorem onvif_preset_first_match_resolution (presets : List ONVIF.Preset)
    (name : String) :
    (∀ p, presets.find? (fun q => q.Name == name) = some p →
      ONVIF.remove_preset presets name = ONVIF.PresetOpResult.issued p.token ∧
      ONVIF.go_to_preset presets name = ONVIF.PresetOpResult.issued p.token) ∧
    (presets.find? (fun q => q.Name == name) = Option.none →
      ONVIF.remove_preset presets name = ONVIF.PresetOpResult.no_match ∧
      ONVIF.go_to_preset presets name = ONVIF.PresetOpResult.no_match) := by
  induction presets with
  | nil => simp [ONVIF.remove_preset, ONVIF.go_to_preset]
  | cons p rest ih =>
    by_cases h : p.Name = name
    · constructor
      · intro q hq
        simp [List.find?, h] at hq
        rw [ONVIF.remove_preset, ONVIF.go_to_preset, if_pos h, if_pos h, ← hq]
        exact ⟨rfl, rfl⟩
      · intro hq
        simp [List.find?, h] at hq
    · have hb : (p.Name == name) = false := by simp [h]
      constructor
      · intro q hq
        simp only [List.find?_cons, hb] at hq
        rw [ONVIF.remove_preset, ONVIF.go_to_preset, if_neg h, if_neg h]
        exact ih.1 q hq
      · intro hq
        simp only [List.find?_cons, hb] at hq
        rw [ONVIF.remove_preset, ONVIF.go_to_preset, if_neg h, if_neg h]
        exact ih.2 hq

/-- Helper: argument validation of the focus choice of continuous_move. -/
theorem sunapi_continuous_focus_choice (ns : Bool) (pan tilt zoom : Int) (s : String) :
    (s ∉ ["Near", "Far", "Stop"] →
      ∃ e, SUNAPI.continuous_move ns pan tilt zoom (some s) = Except.error e) ∧
    (s ∈ ["Near", "Far", "Stop"] →
      ∃ pl, SUNAPI.continuous_move ns pan tilt zoom (some s) = Except.ok pl) := by
  constructor
  · intro h
    simp only [List.mem_cons, List.not_mem_nil, or_false] at h
    push_neg at h
    obtain ⟨h1, h2, h3⟩ := h
    exact ⟨"Unauthorized command: Please enter a string from the choices Near, Far, or Stop",
      by simp [SUNAPI.continuous_move, h1, h2, h3]⟩
  · intro h
    simp only [List.mem_cons, List.not_mem_nil, or_false] at h
    rcases h with h | h | h <;> subst h <;> exact ⟨_, rfl⟩

/-- Helper: argument validation of the mode choice of swing_control. -/
theorem sunapi_swing_mode_choice (channel : Int) (s : String) :
    (s ∉ ["Pan", "Tilt", "PanTilt", "Stop"] →
      ∃ e, SUNAPI.swing_control channel (some s) = Except.error e) ∧
    (s ∈ ["Pan", "Tilt", "PanTilt", "Stop"] →
      ∃ pl, SUNAPI.swing_control channel (some s) = Except.ok pl) := by
  constructor
  · intro h
    simp only [List.mem_cons, List.not_mem_nil, or_false] at h
    push_neg at h
    obtain ⟨h1, h2, h3, h4⟩ := h
    exact ⟨"Unauthorized command: Please enter a string from the choices Pan, Tilt, PanTilt, Stop",
      by simp [SUNAPI.swing_control, h1, h2, h3, h4]⟩
  · intro h
    simp only [List.mem_cons, List.not_mem_nil, or_false] at h
    rcases h with h | h | h | h <;> subst h <;> exact ⟨_, rfl⟩

/-- Helper: argument validation of the mode choice of group_control. -/
theorem sunapi_group_mode_choice (channel group : Int) (s : String) :
    (s ∉ ["Start", "Stop"] →
      ∃ e, SUNAPI.group_control channel group (some s) = Except.error e) ∧
    (s ∈ ["Start", "Stop"] →
      ∃ pl, SUNAPI.group_control channel group (some s) = Except.ok pl) := by
  constructor
  · intro h
    simp only [List.mem_cons, List.not_mem_nil, or_false] at h
    push_neg at h
    obtain ⟨h1, h2⟩ := h
    exact ⟨"Unauthorized command: Please enter a string from the choices Start or Stop",
      by simp [SUNAPI.group_control, h1, h2]⟩
  · intro h
    simp only [List.mem_cons, List.not_mem_nil, or_false] at h
    rcases h with h | h <;> subst h <;> exact ⟨_, rfl⟩

/-- Helper: argument validation of the mode choice of tour_control. -/
theorem sunapi_tour_mode_choice (channel tour : Int) (s : String) :
    (s ∉ ["Start", "Stop"] →
      ∃ e, SUNAPI.tour_control channel tour (some s) = Except.error e) ∧
    (s ∈ ["Start", "Stop"] →
      ∃ pl, SUNAPI.tour_control channel tour (some s) = Except.ok pl) := by
  constructor
  · intro h
    simp only [List.mem_cons, List.not_mem_nil, or_false] at h
    push_neg at h
    obtain ⟨h1, h2⟩ := h
    exact ⟨"Unauthorized command: Please enter a string from the choices Start or Stop",
      by simp [SUNAPI.tour_control, h1, h2]⟩
  · intro h
    simp only [List.mem_cons, List.not_mem_nil, or_false] at h
    rcases h with h | h <;> subst h <;> exact ⟨_, rfl⟩

/-- Helper: argument validation of the mode choice of trace_control. -/
theorem sunapi_trace_mode_choice (channel trace : Int) (s : String) :
    (s ∉ ["Start", "Stop"] →
      ∃ e, SUNAPI.trace_control channel trace (some s) = Except.error e) ∧
    (s ∈ ["Start", "Stop"] →
      ∃ pl, SUNAPI.trace_control channel trace (some s) = Except.ok pl) := by
  constructor
  · intro h
    simp only [List.mem_cons, List.not_mem_nil, or_false] at h
    push_neg at h
    obtain ⟨h1, h2⟩ := h
    exact ⟨"Unauthorized command: Please enter a string from the choices Start or Stop",
      by simp [SUNAPI.trace_control, h1, h2]⟩
  · intro h
    simp only [List.mem_cons, List.not_mem_nil, or_false] at h
    rcases h with h | h <;> subst h <;> exact ⟨_, rfl⟩

/-- C8: every SUNAPI operation taking an enumerated string argument
(the focus of continuous_move; the mode of swing_control, group_control,
tour_control and trace_control) raises an exception before any network
request when the supplied string lies outside its fixed allowed set, and
raises no exception when it lies inside it (the payload is then handed to
the transport). -/
theorem sunapi_enum_arguments_validated (ns : Bool)
    (pan tilt zoom channel group tour trace : Int) (s : String) :
    ((s ∉ ["Near", "Far", "Stop"] →
      ∃ e, SUNAPI.continuous_move ns pan tilt zoom (some s) = Except.error e) ∧
     (s ∈ ["Near", "Far", "Stop"] →
      ∃ pl, SUNAPI.continuous_move ns pan tilt zoom (some s) = Except.ok pl)) ∧
    ((s ∉ ["Pan", "Tilt", "PanTilt", "Stop"] →
      ∃ e, SUNAPI.swing_control channel (some s) = Except.error e) ∧
     (s ∈ ["Pan", "Tilt", "PanTilt", "Stop"] →
      ∃ pl, SUNAPI.swing_control channel (some s) = Except.ok pl)) ∧
    ((s ∉ ["Start", "Stop"] →
      ∃ e, SUNAPI.group_control channel group (some s) = Except.error e) ∧
     (s ∈ ["Start", "Stop"] →
      ∃ pl, SUNAPI.group_control channel group (some s) = Except.ok pl)) ∧
    ((s ∉ ["Start", "Stop"] →
      ∃ e, SUNAPI.tour_control channel tour (some s) = Except.error e) ∧
     (s ∈ ["Start", "Stop"] →
      ∃ pl, SUNAPI.tour_control channel tour (some s) = Except.ok pl)) ∧
    ((s ∉ ["Start", "Stop"] →
      ∃ e, SUNAPI.trace_control channel trace (some s) = Except.error e) ∧
     (s ∈ ["Start", "Stop"] →
      ∃ pl, SUNAPI.trace_control channel trace (some s) = Except.ok pl)) :=
  ⟨sunapi_continuous_focus_choice ns pan tilt zoom s,
   sunapi_swing_mode_choice channel s,
   sunapi_group_mode_choice channel group s,
   sunapi_tour_mode_choice channel tour s,
   sunapi_trace_mode_choice channel trace s⟩

/-- C9: transport status-code handling of the two query-string facades —
response statuses 200 and 204 are the only ones with no error handling;
any other status triggers decoding and reporting of the error body; and
status 401 (and only 401) terminates the whole process instead of
returning an error result; the SUNAPI and VAPIX helpers behave
identically. -/
theorem transport_status_code_handling (status : Nat) :
    ((SUNAPI.cmdHandle status).reportsErrorBody = false ↔
      (status = 200 ∨ status = 204)) ∧
    ((SUNAPI.cmdHandle status).exitsProcess = true ↔ status = 401) ∧
    VAPIX.cmdHandle status = SUNAPI.cmdHandle status := by
  refine ⟨?_, ?_, rfl⟩ <;> unfold SUNAPI.cmdHandle <;> split_ifs with h
  · exact (by simp [h.1, h.2])
  · rcases not_and_or.mp h with h | h <;> simp at h <;> subst h <;> simp
  · exact (by simp [decide_eq_true_iff])
  · rcases not_and_or.mp h with h | h <;> simp at h <;> subst h <;> simp
